import Mathlib

/-!
Shallow embedding of `custom_components/intuitherm/battery_control.py`
(class `BatteryControlExecutor`) from the ha-intuihems repository.

Timestamps are modelled with an absolute hour index plus minute, second and
microsecond fields, mirroring Python `datetime.replace` / `timedelta` usage.
Device side effects are modelled as explicit traces of service calls; an
environment function decides which service calls raise.  Machine floats are
modelled as rationals (the concrete values occurring in the claims are exact
in both representations).
-/

namespace IntuiTherm

/-- A wall-clock instant: `hour` is an absolute hour count (so adding one hour
is `hour + 1`), with `minute`, `second` and `microsecond` as in Python
`datetime`.  Validity (`minute < 60` etc.) is carried as hypotheses. -/
structure Timestamp where
  hour : Nat
  minute : Nat
  second : Nat
  microsecond : Nat
deriving DecidableEq, Repr

/-- Total microseconds represented by a timestamp (for comparisons and
`timedelta.total_seconds()` arithmetic). -/
def Timestamp.toMicro (t : Timestamp) : Nat :=
  ((t.hour * 60 + t.minute) * 60 + t.second) * 1000000 + t.microsecond

/-- `BatteryControlExecutor._get_next_aligned_time` (battery_control.py
lines 117-131): round `now` up to the next quarter-hour mark; when rounding
reaches 60 minutes, go to the top of the next hour. -/
def getNextAlignedTime (now : Timestamp) : Timestamp :=
  let aligned_minute := (now.minute / 15 + 1) * 15
  if 60 ≤ aligned_minute then
    { hour := now.hour + 1, minute := 0, second := 0, microsecond := 0 }
  else
    { now with minute := aligned_minute, second := 0, microsecond := 0 }

/-- The current aligned quarter-hour (battery_control.py lines 205-208):
round `now` down to the last quarter-hour mark. -/
def currentAligned (now : Timestamp) : Timestamp :=
  { now with minute := now.minute / 15 * 15, second := 0, microsecond := 0 }

/-- Signed difference of two timestamps in microseconds, absolute value
(models `abs((a - b).total_seconds())`, scaled by 10^6). -/
def timeDiffMicro (a b : Timestamp) : ℤ :=
  |(a.toMicro : ℤ) - (b.toMicro : ℤ)|

/-- Python truthiness of an optional string (`if x:`): `None` and the empty
string are falsy. -/
def truthy : Option String → Bool
  | Option.none => false
  | Option.some s => !(s == "")

/-- Python `round(q, 2)`: round to 2 decimal places, ties to even
(banker's rounding). -/
def pyRound2 (q : ℚ) : ℚ :=
  let s := q * 100
  let f : ℤ := ⌊s⌋
  let r : ℚ := s - (f : ℚ)
  let n : ℤ :=
    if r < 1/2 then f
    else if 1/2 < r then f + 1
    else if f % 2 = 0 then f else f + 1
  (n : ℚ) / 100

/-- Python `int(q)`: truncation toward zero. -/
def pyInt (q : ℚ) : ℤ :=
  if 0 ≤ q then ⌊q⌋ else -⌊-q⌋

/-- The device profile and configuration read in `BatteryControlExecutor.__init__`
(battery_control.py lines 51-88) from `config["detected_entities"]`:
optional entity ids, the dry-run flag, the configured max battery power
(`battery_max_power_kw`, default 3.0) and the device-specific mode strings
(defaults "Self Use" / "Backup" / "Force Charge"). -/
structure Config where
  batteryModeSelect : Option String
  batteryChargePower : Option String
  batteryDischargePower : Option String
  solaredgeCommandMode : Option String
  gridChargeSwitch : Option String
  haDeviceId : Option String
  dryRunMode : Bool
  batteryMaxPower : ℚ
  modeSelfUse : String
  modeBackup : String
  modeForceCharge : String
deriving DecidableEq, Repr

/-- One device-layer side effect issued by `_apply_control`: the Huawei
`forcible_charge` / `stop_forcible_charge` service calls, `select.select_option`,
`switch.turn_on` / `turn_off`, `number.set_value`, and the literal
`asyncio.sleep` delays between steps. -/
inductive SCall where
  | forcibleCharge (deviceId : String) (duration : Nat) (power : String)
  | stopForcibleCharge (deviceId : Option String)
  | selectOption (entity : Option String) (option : String)
  | switchTurnOn (entity : String)
  | switchTurnOff (entity : String)
  | numberSetValue (entity : Option String) (value : ℚ)
  | sleep (seconds : Nat)
deriving DecidableEq, Repr

/-- The Python value returned by `_apply_control`: `True`, `False`, or `None`
(the bare `return` at battery_control.py line 312). -/
inductive PyRet where
  | bool (b : Bool)
  | pyNone
deriving DecidableEq, Repr

/-- Truthiness of a `PyRet` as tested by `if success:` in `_execute_control`. -/
def PyRet.truthy : PyRet → Bool
  | PyRet.bool b => b
  | PyRet.pyNone => false

/-- Execution state threaded through `_apply_control`: next environment index,
trace of issued calls, and whether an exception is currently propagating.
Every `except` handler in `_apply_control` (the two inner ones and the outer
one) returns `False`, so a propagating exception short-circuits all later
calls and the final result is `False`. -/
structure ApplySt where
  idx : Nat
  trace : List SCall
  raised : Bool
deriving DecidableEq, Repr

/-- Issue one service call: the environment `env` decides whether the call at
this index raises.  A call that raises is still recorded as issued.  No call
is issued while an exception is propagating. -/
def doCall (env : Nat → Bool) (c : SCall) (s : ApplySt) : ApplySt :=
  if s.raised then s
  else { idx := s.idx + 1, trace := s.trace ++ [c], raised := env s.idx }

/-- `await asyncio.sleep(n)`: recorded in the trace, never raises, skipped
while an exception is propagating. -/
def doSleep (n : Nat) (s : ApplySt) : ApplySt :=
  if s.raised then s else { s with trace := s.trace ++ [SCall.sleep n] }

/-- Assemble `_apply_control`'s result: a propagating exception reaches an
`except` handler that returns `False`; otherwise the branch's own return
value stands. -/
def applyFinish (s : ApplySt) (normal : PyRet) : PyRet × List SCall :=
  (if s.raised then PyRet.bool false else normal, s.trace)

/-- `BatteryControlExecutor._apply_control` (battery_control.py lines 273-617).
The mode is an `Option String` because the caller passes
`target_control.get("control_action")`, which may be `None`.  The result is
the returned Python value together with the ordered trace of device calls
and sleeps issued. -/
def applyControl (cfg : Config) (env : Nat → Bool) (mode : Option String)
    (powerKw : ℚ) : PyRet × List SCall :=
  let s0 : ApplySt := ⟨0, [], false⟩
  let isHuawei := cfg.gridChargeSwitch.isSome
  let isSolaredge := cfg.solaredgeCommandMode.isSome
  if mode = Option.some "force_charge" then
    if isHuawei then
      let powerWatts := pyInt (pyRound2 |powerKw| * 1000)
      if ¬ truthy cfg.haDeviceId then
        (PyRet.pyNone, [])
      else
        let s1 := doCall env
          (SCall.forcibleCharge (cfg.haDeviceId.getD "") 16 (toString powerWatts)) s0
        let s2 := doSleep 5 s1
        let s3 := doCall env
          (SCall.selectOption cfg.batteryModeSelect "fixed_charge_discharge") s2
        let s4 := doSleep 5 s3
        let s5 := if truthy cfg.gridChargeSwitch then
            doCall env (SCall.switchTurnOn (cfg.gridChargeSwitch.getD "")) s4
          else s4
        applyFinish s5 (PyRet.bool true)
    else if isSolaredge then
      let s1 := if truthy cfg.batteryChargePower then
          doCall env (SCall.numberSetValue cfg.batteryChargePower
            ((pyInt (pyRound2 |powerKw| * 1000) : ℤ) : ℚ)) s0
        else s0
      let s2 := doCall env
        (SCall.selectOption cfg.solaredgeCommandMode "Charge from Solar Power and Grid") s1
      applyFinish s2 (PyRet.bool true)
    else
      let s1 := doCall env
        (SCall.selectOption cfg.batteryModeSelect cfg.modeForceCharge) s0
      let s2 := if truthy cfg.batteryChargePower then
          doCall env (SCall.numberSetValue cfg.batteryChargePower
            (pyRound2 (max 0 (min 50 powerKw)))) s1
        else s1
      applyFinish s2 (PyRet.bool true)
  else if mode = Option.some "self_use" then
    if isHuawei then
      let s1 := if truthy cfg.gridChargeSwitch then
          doCall env (SCall.switchTurnOff (cfg.gridChargeSwitch.getD "")) s0
        else s0
      let s2 := doSleep 5 s1
      let s3 := doCall env
        (SCall.selectOption cfg.batteryModeSelect "maximise_self_consumption") s2
      let s4 := doSleep 5 s3
      let s5 := doCall env (SCall.stopForcibleCharge
        (if truthy cfg.haDeviceId then cfg.haDeviceId else Option.none)) s4
      applyFinish s5 (PyRet.bool true)
    else if isSolaredge then
      let s1 := if truthy cfg.batteryChargePower then
          doCall env (SCall.numberSetValue cfg.batteryChargePower
            ((pyInt (cfg.batteryMaxPower * 1000) : ℤ) : ℚ)) s0
        else s0
      let s2 := if truthy cfg.batteryDischargePower then
          doCall env (SCall.numberSetValue cfg.batteryDischargePower
            ((pyInt (cfg.batteryMaxPower * 1000) : ℤ) : ℚ)) s1
        else s1
      let s3 := doCall env
        (SCall.selectOption cfg.solaredgeCommandMode "Maximize Self Consumption") s2
      applyFinish s3 (PyRet.bool true)
    else
      applyFinish
        (doCall env (SCall.selectOption cfg.batteryModeSelect cfg.modeSelfUse) s0)
        (PyRet.bool true)
  else if mode = Option.some "backup" then
    if isHuawei then
      let s1 := if truthy cfg.gridChargeSwitch then
          doCall env (SCall.switchTurnOff (cfg.gridChargeSwitch.getD "")) s0
        else s0
      let s2 := doSleep 5 s1
      let s3 := doCall env
        (SCall.selectOption cfg.batteryModeSelect "maximise_self_consumption") s2
      let s4 := doSleep 5 s3
      let s5 := doCall env (SCall.stopForcibleCharge
        (if truthy cfg.haDeviceId then cfg.haDeviceId else Option.none)) s4
      applyFinish s5 (PyRet.bool true)
    else if isSolaredge then
      let s1 := if truthy cfg.batteryChargePower then
          doCall env (SCall.numberSetValue cfg.batteryChargePower
            ((pyInt (cfg.batteryMaxPower * 1000) : ℤ) : ℚ)) s0
        else s0
      let s2 := if truthy cfg.batteryDischargePower then
          doCall env (SCall.numberSetValue cfg.batteryDischargePower 0) s1
        else s1
      let s3 := doCall env
        (SCall.selectOption cfg.solaredgeCommandMode "Maximize Self Consumption") s2
      applyFinish s3 (PyRet.bool true)
    else
      applyFinish
        (doCall env (SCall.selectOption cfg.batteryModeSelect cfg.modeBackup) s0)
        (PyRet.bool true)
  else
    (PyRet.bool false, [])

/-- One entry of the control plan (`control_plan["controls"]`), as read by
`_execute_control`.  `parsed` models the outcome of
`dt_util.as_local(datetime.fromisoformat(s.replace("Z", "+00:00")))` for this
entry's timestamp string: `none` when the Python standard-library parse raises
`ValueError`/`TypeError`, otherwise the resulting local instant.  The parse
itself is standard-library code external to the repository, so its outcome is
supplied as data. -/
structure Control where
  targetTimestamp : Option String
  parsed : Option Timestamp
  controlAction : Option String
  powerSetpoint : Option ℚ
deriving DecidableEq, Repr

/-- The predicate deciding whether one plan entry matches the current aligned
quarter-hour: a truthy timestamp string that parses and lies within 30 seconds
of the aligned boundary (battery_control.py lines 212-231). -/
def controlMatches (alignedTime : Timestamp) (c : Control) : Bool :=
  truthy c.targetTimestamp &&
    match c.parsed with
    | Option.none => false
    | Option.some t => decide (timeDiffMicro t alignedTime < 30 * 1000000)

/-- The matching loop of `_execute_control` (battery_control.py lines 212-231):
skip entries with falsy (`if not control_time_str: continue`) or unparsable
timestamps, select the first entry within the 30-second tolerance, `break` on
the first match, `None` when no entry matches. -/
def findControl (alignedTime : Timestamp) : List Control → Option Control
  | [] => Option.none
  | c :: rest =>
    if ¬ truthy c.targetTimestamp then findControl alignedTime rest
    else
      match c.parsed with
      | Option.none => findControl alignedTime rest
      | Option.some t =>
        if timeDiffMicro t alignedTime < 30 * 1000000 then Option.some c
        else findControl alignedTime rest

/-- The mutable runtime state of the executor (battery_control.py lines 77-81):
`_enabled`, `_last_execution`, `_next_execution` and `_cancel_timer`.  The
armed timer handle is modelled by the instant it is armed for. -/
structure ExecState where
  enabled : Bool
  lastExecution : Option Timestamp
  nextExecution : Option Timestamp
  cancelTimer : Option Timestamp
deriving DecidableEq, Repr

/-- `_schedule_next_execution` (battery_control.py lines 133-146): cancel any
armed timer, recompute the next aligned time, and arm a one-shot timer for it. -/
def scheduleNextExecution (s : ExecState) (now : Timestamp) : ExecState :=
  let next := getNextAlignedTime now
  { s with nextExecution := Option.some next, cancelTimer := Option.some next }

/-- `BatteryControlExecutor.start` (battery_control.py lines 90-106): warn and
return unchanged when already enabled; otherwise set `_enabled`, compute
`_next_execution`, and schedule the first execution. -/
def ExecState.start (s : ExecState) (now : Timestamp) : ExecState :=
  if s.enabled then s
  else
    scheduleNextExecution
      { s with enabled := true,
               nextExecution := Option.some (getNextAlignedTime now) } now

/-- `BatteryControlExecutor.stop` (battery_control.py lines 108-115): cancel
the armed timer if any, clear the timer handle, and clear `_enabled`.
`_last_execution` and `_next_execution` are not touched. -/
def ExecState.stop (s : ExecState) : ExecState :=
  { s with cancelTimer := Option.none, enabled := false }

/-- `_execute_control_callback` (battery_control.py lines 148-155): on timer
fire, first re-arm the timer for the next boundary via
`_schedule_next_execution`, then create the asynchronous task that will run
`_execute_control`.  The returned state is the state at the moment the cycle
body is enqueued, i.e. before it has run. -/
def executeControlCallback (s : ExecState) (now : Timestamp) : ExecState :=
  scheduleNextExecution s now

/-- The coordinator data visible to one cycle after the refresh:
`automaticControlEnabled` is `coordinator.data["control"]["automatic_control_enabled"]`
with its `False`/missing defaults folded in, `controlPlanPresent` is the
truthiness of `coordinator.data["control_plan"]`, and `controls` is
`control_plan.get("controls", [])`. -/
structure CoordData where
  automaticControlEnabled : Bool
  controlPlanPresent : Bool
  controls : List Control
deriving DecidableEq, Repr

/-- Observable events of one execution cycle: the coordinator refresh request,
the demo-mode log lines, each device call issued by `_apply_control`, the
feedback POST of `_send_execution_feedback`, and the error log of the outer
`except` handler. -/
inductive Event where
  | refreshCall
  | demoEarlyLog
  | demoLog (mode : Option String) (power : ℚ)
  | device (c : SCall)
  | feedbackPost (targetTimestamp : Option String) (mode : Option String) (power : ℚ)
  | errorLog
deriving DecidableEq, Repr

/-- `BatteryControlExecutor._execute_control` (battery_control.py lines
157-271).  `envRefresh` is whether `coordinator.async_request_refresh()`
raises (the only statement of the `try` body whose Python counterpart is not
itself wrapped in a narrower handler); `env` drives the service calls of
`_apply_control`.  Returns the updated state and the ordered event trace. -/
def executeControl (cfg : Config) (s : ExecState) (now : Timestamp)
    (dat : CoordData) (envRefresh : Bool) (env : Nat → Bool) :
    ExecState × List Event :=
  if ¬ s.enabled then (s, [])
  else
    let s1 := { s with lastExecution := Option.some now,
                       nextExecution := Option.some (getNextAlignedTime now) }
    if envRefresh then (s1, [Event.refreshCall, Event.errorLog])
    else
      let evs0 := [Event.refreshCall]
      if ¬ dat.automaticControlEnabled then (s1, evs0)
      else
        let evs1 := evs0 ++ (if cfg.dryRunMode then [Event.demoEarlyLog] else [])
        if ¬ dat.controlPlanPresent then (s1, evs1)
        else if dat.controls = [] then (s1, evs1)
        else
          match findControl (currentAligned now) dat.controls with
          | Option.none => (s1, evs1)
          | Option.some c =>
            let mode := c.controlAction
            let power := c.powerSetpoint.getD 0
            if cfg.dryRunMode then (s1, evs1 ++ [Event.demoLog mode power])
            else
              let res := applyControl cfg env mode power
              let evs2 := evs1 ++ res.2.map Event.device
              if (res.1).truthy then
                (s1, evs2 ++ [Event.feedbackPost c.targetTimestamp mode power])
              else (s1, evs2)

/-- C5: for every valid timestamp `t`, `getNextAlignedTime t` is strictly
greater than `t` with minute in {0, 15, 30, 45} and seconds (and microseconds)
zero, advancing the hour when rounding crosses an hour boundary; and
`currentAligned t ≤ t < currentAligned t + 15min`.  Both functions are pure
total Lean functions. -/
theorem timeAligner_spec (t : Timestamp) (hm : t.minute < 60)
    (hs : t.second < 60) (hu : t.microsecond < 1000000) :
    t.toMicro < (getNextAlignedTime t).toMicro
    ∧ ((getNextAlignedTime t).minute = 0 ∨ (getNextAlignedTime t).minute = 15
       ∨ (getNextAlignedTime t).minute = 30 ∨ (getNextAlignedTime t).minute = 45)
    ∧ (getNextAlignedTime t).second = 0 ∧ (getNextAlignedTime t).microsecond = 0
    ∧ (currentAligned t).toMicro ≤ t.toMicro
    ∧ t.toMicro < (currentAligned t).toMicro + 15 * 60 * 1000000 := by
  obtain ⟨h, m, s, u⟩ := t
  simp only [getNextAlignedTime, currentAligned, Timestamp.toMicro] at *
  split_ifs with hc
  all_goals simp_all
  all_goals omega

/-- Witness for C5 at the concrete instant 05:37:12.000345. -/
theorem timeAligner_spec_witness :
    (⟨5, 37, 12, 345⟩ : Timestamp).toMicro
        < (getNextAlignedTime ⟨5, 37, 12, 345⟩).toMicro
    ∧ ((getNextAlignedTime ⟨5, 37, 12, 345⟩).minute = 0
       ∨ (getNextAlignedTime ⟨5, 37, 12, 345⟩).minute = 15
       ∨ (getNextAlignedTime ⟨5, 37, 12, 345⟩).minute = 30
       ∨ (getNextAlignedTime ⟨5, 37, 12, 345⟩).minute = 45)
    ∧ (getNextAlignedTime ⟨5, 37, 12, 345⟩).second = 0
    ∧ (getNextAlignedTime ⟨5, 37, 12, 345⟩).microsecond = 0
    ∧ (currentAligned ⟨5, 37, 12, 345⟩).toMicro
        ≤ (⟨5, 37, 12, 345⟩ : Timestamp).toMicro
    ∧ (⟨5, 37, 12, 345⟩ : Timestamp).toMicro
        < (currentAligned ⟨5, 37, 12, 345⟩).toMicro + 15 * 60 * 1000000 :=
  timeAligner_spec ⟨5, 37, 12, 345⟩ (by decide) (by decide) (by decide)

/-- The matching loop is `List.find?` of the matching predicate. -/
theorem findControl_eq_find (a : Timestamp) (l : List Control) :
    findControl a l = l.find? (controlMatches a) := by
  induction l with
  | nil => rfl
  | cons c rest ih =>
    simp only [findControl, List.find?]
    by_cases h1 : truthy c.targetTimestamp
    · cases hp : c.parsed with
      | none => simp [controlMatches, h1, hp, ih]
      | some t =>
        by_cases h2 : timeDiffMicro t a < 30000000
        · simp [controlMatches, h1, hp, h2]
        · simp [controlMatches, h1, hp, h2, ih]
    · simp [controlMatches, h1, ih]

/-- A matched entry belongs to the plan and satisfies the predicate. -/
theorem findControl_mem_matches (a : Timestamp) (l : List Control) (c : Control)
    (h : findControl a l = Option.some c) :
    c ∈ l ∧ controlMatches a c = true := by
  rw [findControl_eq_find] at h
  exact ⟨List.mem_of_find?_eq_some h, List.find?_some h⟩

/-- C4: for any plan and any aligned boundary, the matcher selects at most one
entry (its result is an `Option`), namely the first entry in plan order
satisfying the matching predicate (`List.find?`); any selected entry has a
truthy timestamp string that parsed, and its parsed instant differs from the
aligned boundary by strictly less than 30 seconds.  Entries with falsy or
unparsable timestamps are skipped, and an empty or unmatched plan yields
`none` rather than an error. -/
theorem controlMatcher_spec (a : Timestamp) (l : List Control) :
    findControl a l = l.find? (controlMatches a)
    ∧ ∀ c, findControl a l = Option.some c →
        c ∈ l ∧ truthy c.targetTimestamp = true
        ∧ ∃ t, c.parsed = Option.some t ∧ timeDiffMicro t a < 30 * 1000000 := by
  refine ⟨findControl_eq_find a l, fun c h => ?_⟩
  obtain ⟨hmem, hmatch⟩ := findControl_mem_matches a l c h
  simp only [controlMatches, Bool.and_eq_true] at hmatch
  obtain ⟨h1, h2⟩ := hmatch
  refine ⟨hmem, h1, ?_⟩
  cases hp : c.parsed with
  | none => rw [hp] at h2; simp at h2
  | some t =>
    rw [hp] at h2
    exact ⟨t, rfl, of_decide_eq_true h2⟩

/-- A plan entry with an unparsable timestamp string. -/
def ctrlBad : Control :=
  { targetTimestamp := Option.some "garbage", parsed := Option.none,
    controlAction := Option.some "self_use", powerSetpoint := Option.some 1 }

/-- A plan entry 10 seconds past the 14:00 boundary. -/
def ctrlGood : Control :=
  { targetTimestamp := Option.some "2024-01-01T14:00:10Z",
    parsed := Option.some ⟨14, 0, 10, 0⟩,
    controlAction := Option.some "force_charge", powerSetpoint := Option.some 2 }

/-- Witness for C4: the unparsable first entry is skipped and the second entry,
10 seconds from the boundary, is selected. -/
theorem controlMatcher_spec_witness :
    findControl ⟨14, 0, 0, 0⟩ [ctrlBad, ctrlGood]
        = [ctrlBad, ctrlGood].find? (controlMatches ⟨14, 0, 0, 0⟩)
    ∧ (ctrlGood ∈ [ctrlBad, ctrlGood]
       ∧ truthy ctrlGood.targetTimestamp = true
       ∧ ∃ t, ctrlGood.parsed = Option.some t
           ∧ timeDiffMicro t ⟨14, 0, 0, 0⟩ < 30 * 1000000) :=
  ⟨(controlMatcher_spec ⟨14, 0, 0, 0⟩ [ctrlBad, ctrlGood]).1,
   (controlMatcher_spec ⟨14, 0, 0, 0⟩ [ctrlBad, ctrlGood]).2 ctrlGood (by decide)⟩

/-- C9: for every control mode that is not `force_charge`, `self_use` or
`backup`, `_apply_control` issues no device call at all and returns `False`. -/
theorem applyControl_unknown_mode (cfg : Config) (env : Nat → Bool) (p : ℚ)
    (m : Option String)
    (h1 : m ≠ Option.some "force_charge") (h2 : m ≠ Option.some "self_use")
    (h3 : m ≠ Option.some "backup") :
    applyControl cfg env m p = (PyRet.bool false, []) := by
  simp [applyControl, h1, h2, h3]

/-- A generic device profile (no Huawei grid-charge switch, no SolarEdge
command-mode entity). -/
def cfgGeneric : Config :=
  { batteryModeSelect := Option.some "select.battery_mode",
    batteryChargePower := Option.some "number.battery_charge_power",
    batteryDischargePower := Option.none,
    solaredgeCommandMode := Option.none,
    gridChargeSwitch := Option.none,
    haDeviceId := Option.none,
    dryRunMode := false,
    batteryMaxPower := 3,
    modeSelfUse := "Self Use", modeBackup := "Backup",
    modeForceCharge := "Force Charge" }

/-- Witness for C9 at the unknown mode string "hold". -/
theorem applyControl_unknown_mode_witness :
    applyControl cfgGeneric (fun _ => false) (Option.some "hold") 1
      = (PyRet.bool false, []) :=
  applyControl_unknown_mode cfgGeneric (fun _ => false) 1 (Option.some "hold")
    (by decide) (by decide) (by decide)

/-- C10: when the executor is disabled (after `stop()`), a cycle that fires
performs no work at all: the state is unchanged and no event — no plan
refresh, no matching, no dispatch, no feedback POST — occurs. -/
theorem executeControl_disabled (cfg : Config) (s : ExecState) (now : Timestamp)
    (dat : CoordData) (envRefresh : Bool) (env : Nat → Bool)
    (h : s.enabled = false) :
    executeControl cfg s now dat envRefresh env = (s, []) := by
  simp [executeControl, h]

/-- Witness for C10: a stopped executor does nothing on a spurious cycle. -/
theorem executeControl_disabled_witness :
    executeControl cfgGeneric
        ⟨false, Option.none, Option.none, Option.none⟩ ⟨14, 7, 12, 0⟩
        ⟨true, true, [ctrlGood]⟩ false (fun _ => false)
      = (⟨false, Option.none, Option.none, Option.none⟩, []) :=
  executeControl_disabled cfgGeneric
    ⟨false, Option.none, Option.none, Option.none⟩ ⟨14, 7, 12, 0⟩
    ⟨true, true, [ctrlGood]⟩ false (fun _ => false) rfl

/-- A Huawei profile (grid-charge switch present) whose battery device id is
missing from the detected entities. -/
def cfgHuaweiNoDevId : Config :=
  { batteryModeSelect := Option.some "select.battery_mode",
    batteryChargePower := Option.none,
    batteryDischargePower := Option.none,
    solaredgeCommandMode := Option.none,
    gridChargeSwitch := Option.some "switch.grid_charge",
    haDeviceId := Option.none,
    dryRunMode := false,
    batteryMaxPower := 3,
    modeSelfUse := "Self Use", modeBackup := "Backup",
    modeForceCharge := "Force Charge" }

/-- C1 (code bug): on the Huawei profile with a missing battery device id and
mode `force_charge`, `_apply_control` hits the bare `return` at
battery_control.py line 312 and yields `None` — not a boolean — even though
its annotation is `-> bool` and its docstring promises `True`/`False`. -/
theorem applyControl_missing_device_id_returns_none :
    applyControl cfgHuaweiNoDevId (fun _ => false) (Option.some "force_charge") (9/5)
      = (PyRet.pyNone, [])
    ∧ PyRet.pyNone ≠ PyRet.bool true ∧ PyRet.pyNone ≠ PyRet.bool false := by
  refine ⟨by decide, by decide, by decide⟩

/-- C2 (Scenario D): on the grid-charge-switch (Huawei) profile with
`force_charge` at 1.8 kW, the dispatcher issues exactly three device calls in
order — the timed `forcible_charge` service call (duration 16 minutes) with
power string "1800", `select_option` to "fixed_charge_discharge", and the
grid-charge switch `turn_on` — separated by the 5-second sleeps; and if the
second call throws, the third is never attempted and the overall result is
failure, with no further (rollback) calls. -/
theorem huawei_force_charge_sequence (cfg : Config) (sw d : String)
    (hsw : cfg.gridChargeSwitch = Option.some sw) (hswt : sw ≠ "")
    (hd : cfg.haDeviceId = Option.some d) (hdt : d ≠ "") (env : Nat → Bool) :
    (env 0 = false → env 1 = false → env 2 = false →
      applyControl cfg env (Option.some "force_charge") (9/5)
        = (PyRet.bool true,
           [SCall.forcibleCharge d 16 "1800", SCall.sleep 5,
            SCall.selectOption cfg.batteryModeSelect "fixed_charge_discharge",
            SCall.sleep 5, SCall.switchTurnOn sw]))
    ∧ (env 0 = false → env 1 = true →
      applyControl cfg env (Option.some "force_charge") (9/5)
        = (PyRet.bool false,
           [SCall.forcibleCharge d 16 "1800", SCall.sleep 5,
            SCall.selectOption cfg.batteryModeSelect "fixed_charge_discharge"])) := by
  have habs : |(9/5 : ℚ)| = 9/5 := by norm_num
  have hr : pyRound2 (9/5 : ℚ) * 1000 = 1800 := by norm_num [pyRound2]
  have hi : pyInt (1800 : ℚ) = 1800 := by norm_num [pyInt]
  have hstr : toString (1800 : ℤ) = "1800" := by decide
  constructor
  · intro h0 h1 h2
    simp [applyControl, doCall, doSleep, applyFinish, truthy, hsw, hswt, hd, hdt,
      h0, h1, h2, habs, hr, hi, hstr]
  · intro h0 h1
    simp [applyControl, doCall, doSleep, applyFinish, truthy, hsw, hswt, hd, hdt,
      h0, h1, habs, hr, hi, hstr]

/-- A complete Huawei profile used as concrete input. -/
def cfgHuawei : Config :=
  { batteryModeSelect := Option.some "select.battery_mode",
    batteryChargePower := Option.none,
    batteryDischargePower := Option.none,
    solaredgeCommandMode := Option.none,
    gridChargeSwitch := Option.some "switch.grid_charge",
    haDeviceId := Option.some "devid1",
    dryRunMode := false,
    batteryMaxPower := 3,
    modeSelfUse := "Self Use", modeBackup := "Backup",
    modeForceCharge := "Force Charge" }

/-- Witness for C2: the all-success sequence on the concrete Huawei profile. -/
theorem huawei_force_charge_sequence_witness :
    applyControl cfgHuawei (fun _ => false) (Option.some "force_charge") (9/5)
      = (PyRet.bool true,
         [SCall.forcibleCharge "devid1" 16 "1800", SCall.sleep 5,
          SCall.selectOption cfgHuawei.batteryModeSelect "fixed_charge_discharge",
          SCall.sleep 5, SCall.switchTurnOn "switch.grid_charge"]) :=
  (huawei_force_charge_sequence cfgHuawei "switch.grid_charge" "devid1"
      rfl (by decide) rfl (by decide) (fun _ => false)).1 rfl rfl rfl

/-- C3 counterexample: on the Huawei profile whose configured max power is
3 kW, a requested 100 kW force charge is written raw as the power string
"100000" (watts) — the value is not clamped to the entity's configured range,
refuting the claim that every dispatch branch clamps. -/
theorem power_clamp_counterexample :
    applyControl cfgHuawei (fun _ => false) (Option.some "force_charge") 100
      = (PyRet.bool true,
         [SCall.forcibleCharge "devid1" 16 "100000", SCall.sleep 5,
          SCall.selectOption cfgHuawei.batteryModeSelect "fixed_charge_discharge",
          SCall.sleep 5, SCall.switchTurnOn "switch.grid_charge"])
    ∧ cfgHuawei.batteryMaxPower = 3 ∧ (3 : ℚ) < 100 := by
  have habs : |(100 : ℚ)| = 100 := by norm_num
  have hr : pyRound2 (100 : ℚ) * 1000 = 100000 := by norm_num [pyRound2]
  have hi : pyInt (100000 : ℚ) = 100000 := by norm_num [pyInt]
  have hstr : toString (100000 : ℤ) = "100000" := by decide
  refine ⟨?_, by decide, by norm_num⟩
  simp [applyControl, doCall, doSleep, applyFinish, truthy, cfgHuawei,
    habs, hr, hi, hstr]

/-- C3 amended: every power write first rounds to at most 2 decimal places,
but clamping differs by branch.  The Huawei and SolarEdge force-charge
branches multiply the rounded absolute kW value by 1000 and write it raw,
with no clamping to the configured max; only the generic branch clamps, and
it clamps to the hardcoded range [0, 50] kW (not the profile's configured
max) and writes the value in kW without a watts multiply. -/
theorem power_rounding_amended (env : Nat → Bool) (powerKw : ℚ)
    (cfgH : Config) (sw d : String)
    (hsw : cfgH.gridChargeSwitch = Option.some sw) (hswt : sw ≠ "")
    (hd : cfgH.haDeviceId = Option.some d) (hdt : d ≠ "")
    (cfgS : Config) (sc cps : String)
    (hs1 : cfgS.gridChargeSwitch = Option.none)
    (hs2 : cfgS.solaredgeCommandMode = Option.some sc)
    (hs3 : cfgS.batteryChargePower = Option.some cps) (hcps : cps ≠ "")
    (cfgG : Config) (cp : String)
    (hg1 : cfgG.gridChargeSwitch = Option.none)
    (hg2 : cfgG.solaredgeCommandMode = Option.none)
    (hg3 : cfgG.batteryChargePower = Option.some cp) (hcp : cp ≠ "")
    (h0 : env 0 = false) (h1 : env 1 = false) (h2 : env 2 = false) :
    applyControl cfgH env (Option.some "force_charge") powerKw
      = (PyRet.bool true,
         [SCall.forcibleCharge d 16 (toString (pyInt (pyRound2 |powerKw| * 1000))),
          SCall.sleep 5,
          SCall.selectOption cfgH.batteryModeSelect "fixed_charge_discharge",
          SCall.sleep 5, SCall.switchTurnOn sw])
    ∧ applyControl cfgS env (Option.some "force_charge") powerKw
      = (PyRet.bool true,
         [SCall.numberSetValue (Option.some cps)
            ((pyInt (pyRound2 |powerKw| * 1000) : ℤ) : ℚ),
          SCall.selectOption (Option.some sc) "Charge from Solar Power and Grid"])
    ∧ applyControl cfgG env (Option.some "force_charge") powerKw
      = (PyRet.bool true,
         [SCall.selectOption cfgG.batteryModeSelect cfgG.modeForceCharge,
          SCall.numberSetValue (Option.some cp)
            (pyRound2 (max 0 (min 50 powerKw)))]) := by
  refine ⟨?_, ?_, ?_⟩
  · simp [applyControl, doCall, doSleep, applyFinish, truthy, hsw, hswt, hd, hdt,
      h0, h1, h2]
  · simp [applyControl, doCall, doSleep, applyFinish, truthy, hs1, hs2, hs3, hcps,
      h0, h1]
  · simp [applyControl, doCall, doSleep, applyFinish, truthy, hg1, hg2, hg3, hcp,
      h0, h1]

/-- A SolarEdge profile (command-mode entity present, no grid-charge switch). -/
def cfgSolarEdge : Config :=
  { batteryModeSelect := Option.some "select.storage_mode",
    batteryChargePower := Option.some "number.charge_limit",
    batteryDischargePower := Option.some "number.discharge_limit",
    solaredgeCommandMode := Option.some "select.command_mode",
    gridChargeSwitch := Option.none,
    haDeviceId := Option.none,
    dryRunMode := false,
    batteryMaxPower := 3,
    modeSelfUse := "Self Use", modeBackup := "Backup",
    modeForceCharge := "Force Charge" }

/-- Witness for the amended C3 at 100 kW on the three concrete profiles. -/
theorem power_rounding_amended_witness :
    applyControl cfgHuawei (fun _ => false) (Option.some "force_charge") 100
      = (PyRet.bool true,
         [SCall.forcibleCharge "devid1" 16
            (toString (pyInt (pyRound2 |(100 : ℚ)| * 1000))),
          SCall.sleep 5,
          SCall.selectOption cfgHuawei.batteryModeSelect "fixed_charge_discharge",
          SCall.sleep 5, SCall.switchTurnOn "switch.grid_charge"])
    ∧ applyControl cfgSolarEdge (fun _ => false) (Option.some "force_charge") 100
      = (PyRet.bool true,
         [SCall.numberSetValue (Option.some "number.charge_limit")
            ((pyInt (pyRound2 |(100 : ℚ)| * 1000) : ℤ) : ℚ),
          SCall.selectOption (Option.some "select.command_mode")
            "Charge from Solar Power and Grid"])
    ∧ applyControl cfgGeneric (fun _ => false) (Option.some "force_charge") 100
      = (PyRet.bool true,
         [SCall.selectOption cfgGeneric.batteryModeSelect cfgGeneric.modeForceCharge,
          SCall.numberSetValue (Option.some "number.battery_charge_power")
            (pyRound2 (max 0 (min 50 100)))]) :=
  power_rounding_amended (fun _ => false) 100
    cfgHuawei "switch.grid_charge" "devid1" rfl (by decide) rfl (by decide)
    cfgSolarEdge "select.command_mode" "number.charge_limit" rfl rfl rfl (by decide)
    cfgGeneric "number.battery_charge_power" rfl rfl rfl (by decide)
    rfl rfl rfl

/-- Whether an event is a device-write call issued via `_apply_control`. -/
def isDeviceEvent : Event → Bool
  | Event.device _ => true
  | _ => false

/-- C7: whenever the dry-run/demo flag is true, no device-write call is ever
issued during a cycle, for any state, coordinator data and environment; and
when an entry is matched, the control decision (mode and power of the matched
entry) is still computed and logged. -/
theorem dry_run_spec (cfg : Config) (now : Timestamp) (env : Nat → Bool)
    (hdry : cfg.dryRunMode = true) :
    (∀ s dat envRefresh,
      ((executeControl cfg s now dat envRefresh env).2).any isDeviceEvent = false)
    ∧ ∀ s dat c, s.enabled = true → dat.automaticControlEnabled = true →
        dat.controlPlanPresent = true → dat.controls ≠ [] →
        findControl (currentAligned now) dat.controls = Option.some c →
        Event.demoLog c.controlAction (c.powerSetpoint.getD 0)
          ∈ (executeControl cfg s now dat false env).2 := by
  constructor
  · intro s dat envRefresh
    by_cases hs : s.enabled <;>
    cases envRefresh <;>
    by_cases hac : dat.automaticControlEnabled <;>
    by_cases hpp : dat.controlPlanPresent <;>
    by_cases hco : dat.controls = [] <;>
    rcases hfc : findControl (currentAligned now) dat.controls with _ | c <;>
    simp [executeControl, hs, hac, hpp, hco, hfc, hdry, isDeviceEvent]
  · intro s dat c hen hac hpp hne hfc
    simp [executeControl, hen, hac, hpp, hne, hfc, hdry]

/-- An enabled executor state with an armed timer. -/
def stateRunning : ExecState :=
  { enabled := true,
    lastExecution := Option.some ⟨14, 0, 0, 0⟩,
    nextExecution := Option.some ⟨14, 15, 0, 0⟩,
    cancelTimer := Option.some ⟨14, 15, 0, 0⟩ }

/-- A dry-run generic profile. -/
def cfgDryRun : Config :=
  { cfgGeneric with dryRunMode := true }

/-- Coordinator data with automatic control on and a plan matching 14:00. -/
def coordDataGood : CoordData :=
  { automaticControlEnabled := true, controlPlanPresent := true,
    controls := [ctrlBad, ctrlGood] }

/-- Witness for C7: a dry-run cycle at 14:00:05 issues no device call yet logs
the matched decision. -/
theorem dry_run_spec_witness :
    ((executeControl cfgDryRun stateRunning ⟨14, 0, 5, 0⟩ coordDataGood false
        (fun _ => false)).2).any isDeviceEvent = false
    ∧ Event.demoLog ctrlGood.controlAction (ctrlGood.powerSetpoint.getD 0)
        ∈ (executeControl cfgDryRun stateRunning ⟨14, 0, 5, 0⟩ coordDataGood false
            (fun _ => false)).2 :=
  ⟨(dry_run_spec cfgDryRun ⟨14, 0, 5, 0⟩ (fun _ => false) rfl).1
      stateRunning coordDataGood false,
   (dry_run_spec cfgDryRun ⟨14, 0, 5, 0⟩ (fun _ => false) rfl).2
      stateRunning coordDataGood ctrlGood rfl rfl rfl (by decide) (by decide)⟩

/-- The state component of a cycle never touches the timer handle. -/
theorem executeControl_cancelTimer (cfg : Config) (s : ExecState)
    (now : Timestamp) (dat : CoordData) (envRefresh : Bool) (env : Nat → Bool) :
    ((executeControl cfg s now dat envRefresh env).1).cancelTimer
      = s.cancelTimer := by
  unfold executeControl
  repeat' split
  all_goals try rfl
  all_goals dsimp only
  all_goals split <;> rfl

/-- C6: on timer fire the callback re-arms the timer for the next aligned
boundary before the cycle body is enqueued (the state returned by the callback
already has the timer armed); the cycle body never modifies the timer handle,
whatever happens inside it; and an exception raised inside the cycle body
(here: a raising plan refresh) is caught and converted to an error log, the
cycle returning normally with its state updated — so a failing cycle never
crashes the loop or leaves the timer unarmed. -/
theorem timer_rearm_and_catch (s : ExecState) (now : Timestamp) (cfg : Config)
    (s2 : ExecState) (dat : CoordData) (envRefresh : Bool) (env : Nat → Bool)
    (hen : s2.enabled = true) :
    (executeControlCallback s now).cancelTimer
        = Option.some (getNextAlignedTime now)
    ∧ ((executeControl cfg s2 now dat envRefresh env).1).cancelTimer
        = s2.cancelTimer
    ∧ executeControl cfg s2 now dat true env
        = ({ s2 with lastExecution := Option.some now,
                     nextExecution := Option.some (getNextAlignedTime now) },
           [Event.refreshCall, Event.errorLog]) := by
  refine ⟨rfl, executeControl_cancelTimer cfg s2 now dat envRefresh env, ?_⟩
  simp [executeControl, hen]

/-- Witness for C6 at a concrete state and instant with a raising refresh. -/
theorem timer_rearm_and_catch_witness :
    (executeControlCallback stateRunning ⟨14, 0, 5, 0⟩).cancelTimer
        = Option.some (getNextAlignedTime ⟨14, 0, 5, 0⟩)
    ∧ ((executeControl cfgGeneric stateRunning ⟨14, 0, 5, 0⟩ coordDataGood true
          (fun _ => false)).1).cancelTimer = stateRunning.cancelTimer
    ∧ executeControl cfgGeneric stateRunning ⟨14, 0, 5, 0⟩ coordDataGood true
          (fun _ => false)
        = ({ stateRunning with
               lastExecution := Option.some ⟨14, 0, 5, 0⟩,
               nextExecution := Option.some (getNextAlignedTime ⟨14, 0, 5, 0⟩) },
           [Event.refreshCall, Event.errorLog]) :=
  timer_rearm_and_catch stateRunning ⟨14, 0, 5, 0⟩ cfgGeneric stateRunning
    coordDataGood true (fun _ => false) rfl

/-- C8 counterexample: `stop()` does not clear all `ExecutorState` fields: on a
running state with a recorded last execution, after `stop()` the
`last_execution` and `next_execution` fields still hold their old values. -/
theorem stop_clears_counterexample :
    (ExecState.stop stateRunning).lastExecution = Option.some ⟨14, 0, 0, 0⟩
    ∧ (ExecState.stop stateRunning).lastExecution ≠ Option.none
    ∧ (ExecState.stop stateRunning).nextExecution = Option.some ⟨14, 15, 0, 0⟩
    ∧ (ExecState.stop stateRunning).nextExecution ≠ Option.none := by
  refine ⟨rfl, by decide, rfl, by decide⟩

/-- C8 amended: `stop()` cancels the armed timer and clears the timer handle
and the enabled flag, but leaves `last_execution` and `next_execution`
unchanged; `stop()` is idempotent; and `start()` on an already-running
executor returns with no state change (logging a warning). -/
theorem start_stop_amended (s : ExecState) (now : Timestamp) :
    ExecState.stop s = { s with cancelTimer := Option.none, enabled := false }
    ∧ (ExecState.stop s).enabled = false
    ∧ (ExecState.stop s).cancelTimer = Option.none
    ∧ (ExecState.stop s).lastExecution = s.lastExecution
    ∧ (ExecState.stop s).nextExecution = s.nextExecution
    ∧ ExecState.stop (ExecState.stop s) = ExecState.stop s
    ∧ (s.enabled = true → ExecState.start s now = s) := by
  refine ⟨rfl, rfl, rfl, rfl, rfl, rfl, fun h => ?_⟩
  simp [ExecState.start, h]

/-- Witness for the amended C8 on a concrete running state. -/
theorem start_stop_amended_witness :
    ExecState.stop stateRunning
        = { stateRunning with cancelTimer := Option.none, enabled := false }
    ∧ (ExecState.stop stateRunning).enabled = false
    ∧ (ExecState.stop stateRunning).cancelTimer = Option.none
    ∧ (ExecState.stop stateRunning).lastExecution = stateRunning.lastExecution
    ∧ (ExecState.stop stateRunning).nextExecution = stateRunning.nextExecution
    ∧ ExecState.stop (ExecState.stop stateRunning) = ExecState.stop stateRunning
    ∧ (stateRunning.enabled = true →
        ExecState.start stateRunning ⟨14, 0, 5, 0⟩ = stateRunning) :=
  start_stop_amended stateRunning ⟨14, 0, 5, 0⟩

end IntuiTherm
